import Mathlib

/-!
Shallow embedding of the retrieval-and-filter engine, response orchestrator
and tool dispatcher of the `food` repository
(src/backend/app/rag/retriever.py, src/backend/app/llm/openai_client.py,
src/backend/app/mcp/server.py), together with theorems settling the
specification claims about them.

Python `None`-able values are modelled with `Option`; Python truthiness of
optional strings / lists (`if x:`) is modelled by explicit `truthy*`
predicates; a Python exception escaping a region is modelled by `Option`
(for index errors inside a `try` block) or `Except` (for calls whose
errors the code lets propagate).  Real-number scores and the sampling
temperature are modelled with `Rat`.
-/

namespace Food

/-- Document metadata, a mapping from string keys to scalar values;
modelled as an association list of string pairs (only equality of whole
metadata values matters to the claims). -/
abbrev Metadata := List (String × String)

/-- Python truthiness of an optional list argument: `None` and `[]` are
falsy, a non-empty list is truthy. -/
def truthyList {α : Type} : Option (List α) → Bool
  | none => false
  | some l => !l.isEmpty

/-- Python truthiness of an optional string argument: `None` and `""` are
falsy. -/
def truthyStr : Option String → Bool
  | none => false
  | some s => !s.isEmpty

/-! ### Filter Compiler (retriever.py, `search_foods` lines 33-53)

The `where` predicate language of the vector index, as the code uses it:
`{"$not": {field: {"$contains": v}}}`, `{field: {"$contains": v}}`,
`{field: v}` (exact match) and `{"$and": [...]}`. -/

inductive WhereFilter : Type where
  | notContains (field : String) (value : String)
  | containsPred (field : String) (value : String)
  | exact (field : String) (value : String)
  | conj (clauses : List WhereFilter)

/-- The keyword arguments of `search_foods` that feed the filter compiler
(`allergies`, `dietary_type`, `cuisines`, `spice_level`, `meal_type`);
each is `Option` because each parameter defaults to `None`. -/
structure SearchArgs where
  allergies : Option (List String)
  dietary_type : Option String
  cuisines : Option (List String)
  spice_level : Option String
  meal_type : Option String
deriving DecidableEq

/-- The `where_filters` list built by `search_foods` (retriever.py lines
33-47): one negated-containment predicate per allergen when `allergies`
is truthy, a containment predicate on `tags` for a truthy `dietary_type`,
and exact-match predicates for truthy `spice_level` / `meal_type`, in
that order.  `cuisines` is never consulted. -/
def whereFilters (a : SearchArgs) : List WhereFilter :=
  (if truthyList a.allergies then
      (a.allergies.getD []).map (fun allergen => WhereFilter.notContains "allergens" allergen)
    else [])
  ++ (if truthyStr a.dietary_type then
        [WhereFilter.containsPred "tags" (a.dietary_type.getD "")]
      else [])
  ++ (if truthyStr a.spice_level then
        [WhereFilter.exact "spice_level" (a.spice_level.getD "")]
      else [])
  ++ (if truthyStr a.meal_type then
        [WhereFilter.exact "meal_type" (a.meal_type.getD "")]
      else [])

/-- The compiled `where` argument (retriever.py lines 49-53): `None` when
`where_filters` is empty, the single filter unwrapped when there is
exactly one, and `{"$and": where_filters}` otherwise. -/
def compileWhere (a : SearchArgs) : Option WhereFilter :=
  match whereFilters a with
  | [] => none
  | [f] => some f
  | fs => some (WhereFilter.conj fs)

/-! ### Retrieval Engine (retriever.py, `search_foods` lines 55-77 and
`get_food_by_id` lines 81-98) -/

/-- The parallel-array response of `collection.query` (one inner list per
query text; `search_foods` sends a single query text and reads row `[0]`).
`documents`, `metadatas` and `distances` may be `None`. -/
structure QueryResult where
  ids : List (List String)
  documents : Option (List (List String))
  metadatas : Option (List (List Metadata))
  distances : Option (List (List Rat))

/-- A normalized search hit as `search_foods` builds it. -/
structure DishResult where
  id : String
  content : String
  metadata : Metadata
  score : Rat
deriving DecidableEq

/-- One iteration of the normalization loop of `search_foods` (lines
66-73): builds the `i`-th food dict from the parallel arrays.  `none`
models an `IndexError` raised by an out-of-range access (caught by the
surrounding `except`).  The `metadata` and `score` fields use Python
truthiness of `results["metadatas"]` / `results["distances"]`, falling
back to `{}` / `0`. -/
def buildFood (r : QueryResult) (i : Nat) (doc : String) : Option DishResult := do
  let ids0 ← r.ids.get? 0
  let id ← ids0.get? i
  let metadata ←
    if truthyList r.metadatas then do
      let m0 ← (r.metadatas.getD []).get? 0
      m0.get? i
    else
      pure ([] : Metadata)
  let score ←
    if truthyList r.distances then do
      let d0 ← (r.distances.getD []).get? 0
      let d ← d0.get? i
      pure (1 - d)
    else
      pure (0 : Rat)
  pure { id := id, content := doc, metadata := metadata, score := score }

/-- The `for i, doc in enumerate(results["documents"][0])` loop of
`search_foods`, threading the running index; `none` models an exception
inside the loop. -/
def buildFoods (r : QueryResult) (docs : List String) (i : Nat) : Option (List DishResult) :=
  match docs with
  | [] => some []
  | doc :: rest => do
      let food ← buildFood r i doc
      let foods ← buildFoods r rest (i + 1)
      pure (food :: foods)

/-- Normalization of a query response by `search_foods` (lines 63-74):
guarded by `if results["documents"] and results["documents"][0]:`, it
builds one `DishResult` per document of row `[0]`, otherwise yields the
empty list. -/
def normalizeResults (r : QueryResult) : Option (List DishResult) :=
  if truthyList r.documents && !((r.documents.getD []).headD []).isEmpty then
    buildFoods r ((r.documents.getD []).headD []) 0
  else
    some []

/-- The response of `collection.get` for a single id (flat parallel
arrays). -/
structure GetResult where
  documents : Option (List String)
  metadatas : Option (List Metadata)

/-- The dict returned by `get_food_by_id` on a hit. -/
structure FoodDetail where
  id : String
  content : String
  metadata : Metadata
deriving DecidableEq

/-- The vector-index collection as the Retrieval Engine sees it: `query`
takes the query text, `n_results` and the compiled `where` filter and
either raises (`Except.error`) or returns a `QueryResult`; `getById`
likewise for point lookup.  (The `include` lists are fixed in the code
and folded into the response types.) -/
structure Collection where
  query : String → Int → Option WhereFilter → Except String QueryResult
  getById : String → Except String GetResult

/-- `search_foods` (retriever.py lines 22-77).  The first argument
models the `collection = get_collection()` call on line 31: it performs
an HTTP round trip (`get_or_create_collection`) to the index and sits
OUTSIDE the `try` block, so when it raises (`Except.error`) the error
propagates out of `search_foods`.  With a collection handle in hand,
the function compiles the `where` filter, issues a single index query,
and normalizes the response; any exception raised inside the `try`
block (the `collection.query` call itself, or an out-of-range access
while normalizing) is caught and yields `[]`. -/
def search_foods (getCol : Except String Collection) (query : String) (a : SearchArgs)
    (n_results : Int) : Except String (List DishResult) := do
  let collection ← getCol
  pure (match collection.query query n_results (compileWhere a) with
    | .error _ => []
    | .ok r =>
        match normalizeResults r with
        | none => []
        | some foods => foods)

/-- `get_food_by_id` (retriever.py lines 81-98): point lookup.  As in
`search_foods`, the `get_collection()` call on line 81 is outside the
`try` block and its error propagates; an error raised by the
`collection.get` call inside the `try` is caught and yields `None`, as
does a response whose `documents` field is falsy (absent or empty). -/
def get_food_by_id (getCol : Except String Collection) (food_id : String) :
    Except String (Option FoodDetail) := do
  let collection ← getCol
  pure (match collection.getById food_id with
    | .error _ => none
    | .ok r =>
        if truthyList r.documents then
          some { id := food_id,
                 content := (r.documents.getD []).headD "",
                 metadata :=
                   if truthyList r.metadatas then (r.metadatas.getD []).headD [] else [] }
        else
          none)

/-! ### Response Orchestrator (openai_client.py) -/

/-- A chat message (`{"role": ..., "content": ...}`). -/
structure Message where
  role : String
  content : String
deriving DecidableEq

/-- The fixed persona system prompt (openai_client.py `SYSTEM_PROMPT`). -/
def SYSTEM_PROMPT : String :=
  "You are a friendly and knowledgeable Indian food recommendation assistant. You specialize in vegetarian Indian cuisine from all regions - South Indian, North Indian, Gujarati, Bengali, Rajasthani, and more.\n\nYour personality:\n- Warm and enthusiastic about Indian food\n- Share interesting cultural context and stories about dishes\n- Give practical cooking tips when relevant\n- Respect dietary restrictions strictly\n\nWhen making recommendations:\n1. Consider the user's preferences, allergies, and health goals\n2. Suggest dishes that match the meal type and occasion\n3. Explain why each dish would be good for them\n4. Include nutrition highlights when relevant\n5. Suggest complementary dishes (like pairing with raita or chutney)\n\nAlways format your recommendations clearly. For each dish, include:\n- The name and region of origin\n- A brief, appetizing description\n- Why it suits their preferences\n- Any tips for preparation or serving\n\nIf the user has allergies or restrictions, explicitly confirm that your suggestions avoid those items."

/-- The persona message both modes prepend first. -/
def personaMessage : Message :=
  { role := "system", content := SYSTEM_PROMPT }

/-- The grounding message `generate_streaming_response` appends when
`context` is truthy (lines 42-46). -/
def streamingContextMessage (context : String) : Message :=
  { role := "system",
    content := "Here are some relevant dishes from our database:\n\n" ++ context
      ++ "\n\nUse this to make personalized recommendations." }

/-- The grounding message `generate_response` appends when `context` is
truthy (lines 71-75); note its wrapper text differs from the streaming
mode's. -/
def bufferedContextMessage (context : String) : Message :=
  { role := "system",
    content := "Relevant dishes:\n\n" ++ context }

/-- The `full_messages` list sent by `generate_streaming_response`
(lines 40-48): persona first, then the grounding message iff `context`
is truthy, then the caller's messages. -/
def fullMessagesStreaming (messages : List Message) (context : Option String) : List Message :=
  ([personaMessage]
    ++ (if truthyStr context then [streamingContextMessage (context.getD "")] else []))
  ++ messages

/-- The `full_messages` list sent by `generate_response` (lines 69-77):
same order, with the buffered wrapper text. -/
def fullMessagesBuffered (messages : List Message) (context : Option String) : List Message :=
  ([personaMessage]
    ++ (if truthyStr context then [bufferedContextMessage (context.getD "")] else []))
  ++ messages

/-- Sampling parameters passed to the generation service. -/
structure GenParams where
  temperature : Rat
  max_tokens : Nat
deriving DecidableEq

/-- The generation service as a deterministic stub: `complete` is the
one-shot completion content (`None` when the service returns no
content), `chunks` the stream of incremental content deltas (each delta
possibly `None` or empty). -/
structure GenService where
  complete : List Message → GenParams → Option String
  chunks : List Message → GenParams → List (Option String)

/-- Concatenation of a chunk stream's content deltas, `None` counting as
empty. -/
def joinChunks : List (Option String) → String
  | [] => ""
  | c :: rest => c.getD "" ++ joinChunks rest

/-- Concatenation of the fragments a streaming response emitted. -/
def concatFragments : List String → String
  | [] => ""
  | s :: rest => s ++ concatFragments rest

/-- A deterministic generation stub is coherent when the concatenation of
its incremental deltas equals its one-shot completion content (empty for
`None`), for every message list and parameter choice. -/
def Coherent (svc : GenService) : Prop :=
  ∀ m p, joinChunks (svc.chunks m p) = (svc.complete m p).getD ""

/-- `generate_streaming_response` (openai_client.py lines 34-60): sends
`full_messages` with `temperature=0.7, max_tokens=1500` in streaming
mode and yields each chunk's delta content when it is truthy (non-`None`
and non-empty). -/
def generate_streaming_response (svc : GenService) (messages : List Message)
    (context : Option String) : List String :=
  (svc.chunks (fullMessagesStreaming messages context)
      { temperature := 7/10, max_tokens := 1500 }).filterMap
    (fun content =>
      match content with
      | some s => if s.isEmpty then none else some s
      | none => none)

/-- `generate_response` (openai_client.py lines 63-86): sends
`full_messages` with `temperature=0.7, max_tokens=1500` once and returns
`response.choices[0].message.content or ""`. -/
def generate_response (svc : GenService) (messages : List Message)
    (context : Option String) : String :=
  (svc.complete (fullMessagesBuffered messages context)
      { temperature := 7/10, max_tokens := 1500 }).getD ""

/-! ### Preference store and Tool Dispatcher (server.py) -/

/-- Modelled from the spec: the `UserPreferences` ORM record (its class
lives in `app/db/models.py`, which is not part of the given source
tree).  Spec section 3: identified by `user_id`, with fields
`dietary_type`, `spice_level`, `allergies`, `preferred_cuisines`;
created on first save for a `user_id` and thereafter partially updated
field-by-field. -/
structure UserPreferences where
  user_id : String
  dietary_type : Option String
  spice_level : Option String
  allergies : Option (List String)
  preferred_cuisines : Option (List String)
deriving DecidableEq

/-- Modelled from the spec: `UserPreferences(user_id=...)` constructs a
fresh record for that user with every preference field still unset
(spec section 3: fields are only ever set by a save). -/
def freshPreferences (uid : String) : UserPreferences :=
  { user_id := uid, dietary_type := none, spice_level := none,
    allergies := none, preferred_cuisines := none }

/-- The preference fields of a `save_preferences` argument mapping;
`some v` means the key is present in `arguments` with value `v`
(the dispatch loop tests `if key in arguments`, i.e. presence, not
truthiness). -/
structure PrefArgs where
  dietary_type : Option String
  spice_level : Option String
  allergies : Option (List String)
  preferred_cuisines : Option (List String)
deriving DecidableEq

/-- The `save_preferences` branch of `call_tool` (server.py lines
84-89): take the existing record for `user_id` (or a fresh one when
absent), then overwrite exactly the fields present in `arguments`, in
the loop's order `dietary_type, spice_level, allergies,
preferred_cuisines`; the result is the record committed. -/
def save_preferences (existing : Option UserPreferences) (uid : String) (args : PrefArgs) :
    UserPreferences :=
  let prefs :=
    match existing with
    | some p => p
    | none => freshPreferences uid
  let prefs :=
    match args.dietary_type with
    | some v => { prefs with dietary_type := some v }
    | none => prefs
  let prefs :=
    match args.spice_level with
    | some v => { prefs with spice_level := some v }
    | none => prefs
  let prefs :=
    match args.allergies with
    | some v => { prefs with allergies := some v }
    | none => prefs
  let prefs :=
    match args.preferred_cuisines with
    | some v => { prefs with preferred_cuisines := some v }
    | none => prefs
  prefs

/-- The argument mapping of a `call_tool` invocation; `some v` models a
key present in the `arguments` dict with value `v`, `none` a missing
key (so `arguments["k"]` raises `KeyError` exactly on `none`, and
`arguments.get("k")` yields `None`). -/
structure ToolArguments where
  query : Option String
  allergies : Option (List String)
  spice_level : Option String
  cuisine : Option String
  meal_type : Option String
  food_id : Option String
  user_id : Option String
  dietary_type : Option String
  preferred_cuisines : Option (List String)
deriving DecidableEq

/-- Stand-in for `json.dumps(results, indent=2)` on a search-result
list: a deterministic rendering.  No claim depends on the exact text,
only on its being a function of the rendered value. -/
def dumpResults (rs : List DishResult) : String :=
  concatFragments (rs.map (fun d =>
    "(id " ++ d.id ++ ", content " ++ d.content ++ ", score " ++ toString d.score ++ ")"))

/-- Stand-in for `json.dumps(food, indent=2)` on a food detail. -/
def dumpFood (f : FoodDetail) : String :=
  "(id " ++ f.id ++ ", content " ++ f.content ++ ")"

/-- `call_tool` (server.py lines 62-92): routes on the tool name.
`search_food` forwards only `query`, `allergies`, `spice_level` and
`meal_type` to `search_foods` (so `dietary_type` and `cuisines` keep
their `None` defaults, and `n_results` its default `5`);
`get_food_details` delegates to `get_food_by_id` and renders "Food not
found" on a miss; `save_preferences` upserts via `save_preferences`
(the committed record is `save_preferences (db uid) uid ...`); any
other name yields the "Unknown tool" text.  `Except.error` models a
Python exception escaping the handler (a `KeyError` on a missing
required argument, or a collection-acquisition error propagating out of
the Retrieval Engine); the result is the list of `TextContent` texts
returned. -/
def call_tool (getCol : Except String Collection) (db : String → Option UserPreferences)
    (name : String) (arguments : ToolArguments) : Except String (List String) :=
  if name = "search_food" then
    match arguments.query with
    | none => .error "KeyError: query"
    | some q =>
        match search_foods getCol q
            { allergies := arguments.allergies, dietary_type := none, cuisines := none,
              spice_level := arguments.spice_level, meal_type := arguments.meal_type } 5 with
        | .error e => .error e
        | .ok results => .ok [dumpResults results]
  else if name = "get_food_details" then
    match arguments.food_id with
    | none => .error "KeyError: food_id"
    | some fid =>
        match get_food_by_id getCol fid with
        | .error e => .error e
        | .ok (some food) => .ok [dumpFood food]
        | .ok none => .ok ["Food not found"]
  else if name = "save_preferences" then
    match arguments.user_id with
    | none => .error "KeyError: user_id"
    | some uid =>
        let _committed := save_preferences (db uid) uid
          { dietary_type := arguments.dietary_type, spice_level := arguments.spice_level,
            allergies := arguments.allergies,
            preferred_cuisines := arguments.preferred_cuisines }
        .ok ["Preferences saved"]
  else
    .ok ["Unknown tool: " ++ name]

/-! ### Concrete fixtures used by witnesses -/

/-- A collection whose index calls always raise. -/
def downCollection : Collection :=
  { query := fun _ _ _ => .error "connection refused",
    getById := fun _ => .error "connection refused" }

/-- `search_foods` arguments with every constraint left at its default. -/
def noArgs : SearchArgs :=
  { allergies := none, dietary_type := none, cuisines := none,
    spice_level := none, meal_type := none }

/-- Constraint set of the spec's scenario: exclude peanut, breakfast. -/
def peanutBreakfast : SearchArgs :=
  { allergies := some ["peanut"], dietary_type := none, cuisines := none,
    spice_level := none, meal_type := some "breakfast" }

/-- A tool-argument mapping with no keys present. -/
def emptyToolArguments : ToolArguments :=
  { query := none, allergies := none, spice_level := none, cuisine := none,
    meal_type := none, food_id := none, user_id := none, dietary_type := none,
    preferred_cuisines := none }

/-- A generation service that returns no content and no chunks. -/
def silentService : GenService :=
  { complete := fun _ _ => none, chunks := fun _ _ => [] }

/-- A caller message used by fixtures. -/
def userHello : Message := { role := "user", content := "recommend a breakfast" }

/-! ### Helper lemmas -/

theorem headD_of_get?_zero {α : Type} (l : List α) (d x : α) (h : l.get? 0 = some x) :
    l.headD d = x := by
  cases l <;> simp_all

theorem getD_of_get? {α : Type} (l : List α) (i : Nat) (d x : α) (h : l.get? i = some x) :
    l.getD i d = x := by
  rw [List.getD_eq_getElem?_getD, ← List.get?_eq_getElem?, h]
  rfl

/-- What a successful `buildFood` pins down: the content is the given
document, the id is the `i`-th entry of the id row, and the score is
`1 - distance` when the distances field is truthy and `0` otherwise. -/
theorem buildFood_spec (r : QueryResult) (k : Nat) (doc : String) (food : DishResult)
    (h : buildFood r k doc = some food) :
    food.content = doc
    ∧ food.id = (r.ids.headD []).getD k ""
    ∧ food.score = (if truthyList r.distances
        then 1 - ((r.distances.getD []).headD []).getD k 0 else 0) := by
  unfold buildFood at h
  cases hds : truthyList r.distances <;>
    cases hmd : truthyList r.metadatas <;>
      simp [hds, hmd, Option.bind_eq_some] at h ⊢
  · obtain ⟨ids0, hids, id, hid, heq⟩ := h
    subst heq
    simp [List.head?_eq_getElem?, hids, hid]
  · obtain ⟨ids0, hids, id, hid, m0, hm0, md, hmd2, heq⟩ := h
    subst heq
    simp [List.head?_eq_getElem?, hids, hid]
  · obtain ⟨ids0, hids, id, hid, d0, hd0, d, hd, heq⟩ := h
    subst heq
    simp [List.head?_eq_getElem?, hids, hid, hd0, hd]
  · obtain ⟨ids0, hids, id, hid, m0, hm0, md, hmd2, d0, hd0, d, hd, heq⟩ := h
    subst heq
    simp [List.head?_eq_getElem?, hids, hid, hd0, hd]

/-- A successful `buildFoods` run produces one result per document, the
`j`-th built from the `j`-th document at running index `k + j`. -/
theorem buildFoods_spec (r : QueryResult) :
    ∀ (docs : List String) (k : Nat) (foods : List DishResult),
      buildFoods r docs k = some foods →
      foods.length = docs.length
      ∧ ∀ j food, foods.get? j = some food →
          buildFood r (k + j) (docs.getD j "") = some food := by
  intro docs
  induction docs with
  | nil =>
      intro k foods h
      simp only [buildFoods, Option.some.injEq] at h
      subst h
      simp
  | cons doc rest ih =>
      intro k foods h
      simp only [buildFoods, Option.bind_eq_bind, Option.pure_def, Option.bind_eq_some,
        Option.some.injEq] at h
      obtain ⟨fd, hfd, tl, htl, rfl⟩ := h
      have ihs := ih (k + 1) tl htl
      refine ⟨by simp [ihs.1], ?_⟩
      intro j food hj
      cases j with
      | zero =>
          simp only [List.get?_cons_zero, Option.some.injEq] at hj
          subst hj
          simpa using hfd
      | succ j =>
          rw [List.get?_cons_succ] at hj
          have hstep := ihs.2 j food hj
          have harith : k + (j + 1) = k + 1 + j := by omega
          rw [harith]
          simpa using hstep

/-! ### Claims -/

/-- C1 counterexample: not every index-level failure is absorbed.  The
`get_collection()` call (an HTTP round trip to the index via
`get_or_create_collection`) sits outside the `try` blocks of both
operations, so an unreachable index at that point raises past the
Retrieval Engine boundary instead of yielding the empty sequence /
absent value. -/
theorem C1_acquisition_error_counterexample :
    search_foods (Except.error "connection refused") "dosa" noArgs 5
        = Except.error "connection refused"
    ∧ get_food_by_id (Except.error "connection refused") "food-1"
        = Except.error "connection refused" :=
  ⟨rfl, rfl⟩

/-- C1 amended: exceptions raised by the index calls inside the `try`
blocks (`collection.query` during search, `collection.get` during point
lookup) do not propagate: with the collection handle already acquired,
`search_foods` returns the empty list and `get_food_by_id` returns the
absent value. -/
theorem C1_retrieval_fail_soft (c : Collection) (q : String) (a : SearchArgs) (n : Int)
    (fid e e' : String)
    (hq : c.query q n (compileWhere a) = .error e)
    (hg : c.getById fid = .error e') :
    search_foods (Except.ok c) q a n = Except.ok []
      ∧ get_food_by_id (Except.ok c) fid = Except.ok none := by
  constructor
  · simp [search_foods, hq]
  · simp [get_food_by_id, hg]

/-- Witness for the amended C1 at a collection whose index calls always
raise. -/
theorem C1_retrieval_fail_soft_witness :
    search_foods (Except.ok downCollection) "dosa" noArgs 5 = Except.ok []
      ∧ get_food_by_id (Except.ok downCollection) "food-1" = Except.ok none :=
  C1_retrieval_fail_soft downCollection "dosa" noArgs 5 "food-1"
    "connection refused" "connection refused" rfl rfl

/-- C2: the Filter Compiler emits one negated-containment predicate on
`allergens` per allergen, a containment predicate on `tags` for
`dietary_type`, and exact-match predicates for `spice_level` and
`meal_type`; with zero active constraints it returns no filter, with
exactly one it returns that predicate unwrapped, and with two or more
it returns their conjunction. -/
theorem C2_filter_compiler (a : SearchArgs) :
    (whereFilters a
        = (if truthyList a.allergies then
              (a.allergies.getD []).map (fun al => WhereFilter.notContains "allergens" al)
            else [])
          ++ (if truthyStr a.dietary_type then
                [WhereFilter.containsPred "tags" (a.dietary_type.getD "")] else [])
          ++ (if truthyStr a.spice_level then
                [WhereFilter.exact "spice_level" (a.spice_level.getD "")] else [])
          ++ (if truthyStr a.meal_type then
                [WhereFilter.exact "meal_type" (a.meal_type.getD "")] else []))
    ∧ (whereFilters a = [] → compileWhere a = none)
    ∧ (∀ f, whereFilters a = [f] → compileWhere a = some f)
    ∧ (2 ≤ (whereFilters a).length → compileWhere a = some (WhereFilter.conj (whereFilters a))) := by
  refine ⟨rfl, ?_, ?_, ?_⟩
  · intro h
    simp [compileWhere, h]
  · intro f h
    simp [compileWhere, h]
  · intro h
    unfold compileWhere
    match hw : whereFilters a with
    | [] => rw [hw] at h; simp at h
    | [f] => rw [hw] at h; simp at h
    | f :: g :: rest => rfl

/-- Witness for C2: allergen "peanut" plus meal type "breakfast" give a
two-predicate conjunction. -/
theorem C2_filter_compiler_witness :
    compileWhere peanutBreakfast
      = some (WhereFilter.conj
          [WhereFilter.notContains "allergens" "peanut",
           WhereFilter.exact "meal_type" "breakfast"]) :=
  (C2_filter_compiler peanutBreakfast).2.2.2 (by decide)

/-- C5: in both modes the message sequence sent to the generation
service is persona first, then the grounding system message exactly when
context is supplied (truthy), then the caller's conversation; with no
context the conversation directly follows the persona message. -/
theorem C5_message_order (messages : List Message) (context : String) :
    fullMessagesStreaming messages none = personaMessage :: messages
    ∧ fullMessagesBuffered messages none = personaMessage :: messages
    ∧ (context.isEmpty = false →
        fullMessagesStreaming messages (some context)
            = personaMessage :: streamingContextMessage context :: messages
          ∧ fullMessagesBuffered messages (some context)
            = personaMessage :: bufferedContextMessage context :: messages)
    ∧ (streamingContextMessage context).role = "system"
    ∧ (bufferedContextMessage context).role = "system" := by
  refine ⟨rfl, rfl, ?_, rfl, rfl⟩
  intro h
  constructor
  · simp [fullMessagesStreaming, truthyStr, h]
  · simp [fullMessagesBuffered, truthyStr, h]

/-- Witness for C5 with a supplied context. -/
theorem C5_message_order_witness :
    fullMessagesStreaming [userHello] (some "dosa: a crisp crepe")
        = personaMessage :: streamingContextMessage "dosa: a crisp crepe" :: [userHello]
      ∧ fullMessagesBuffered [userHello] (some "dosa: a crisp crepe")
        = personaMessage :: bufferedContextMessage "dosa: a crisp crepe" :: [userHello] :=
  (C5_message_order [userHello] "dosa: a crisp crepe").2.2.1 (by decide)

/-- C6: `save_preferences` overwrites only the fields present in the
arguments: with only `spice_level` supplied on an existing record the
result is that record with just `spice_level` replaced (so `allergies`
and `preferred_cuisines` are unchanged), and with no existing record a
record keyed by the given `user_id` is created. -/
theorem C6_preference_field_update (p : UserPreferences) (uid s : String) (args : PrefArgs) :
    (save_preferences (some p) uid
        { dietary_type := none, spice_level := some s,
          allergies := none, preferred_cuisines := none }
      = { p with spice_level := some s })
    ∧ (save_preferences (some p) uid
        { dietary_type := none, spice_level := some s,
          allergies := none, preferred_cuisines := none }).allergies = p.allergies
    ∧ (save_preferences (some p) uid
        { dietary_type := none, spice_level := some s,
          allergies := none, preferred_cuisines := none }).preferred_cuisines
      = p.preferred_cuisines
    ∧ (save_preferences none uid args).user_id = uid := by
  refine ⟨rfl, rfl, rfl, ?_⟩
  cases args with
  | mk d sl al pc => cases d <;> cases sl <;> cases al <;> cases pc <;> rfl

/-- C7: `call_tool` on any name outside the three fixed tools raises
nothing and returns the single text "Unknown tool: <name>". -/
theorem C7_unknown_tool (getCol : Except String Collection)
    (db : String → Option UserPreferences)
    (name : String) (args : ToolArguments)
    (h1 : name ≠ "search_food") (h2 : name ≠ "get_food_details")
    (h3 : name ≠ "save_preferences") :
    call_tool getCol db name args = .ok ["Unknown tool: " ++ name] := by
  simp [call_tool, h1, h2, h3]

/-- Witness for C7 at the name "delete_everything". -/
theorem C7_unknown_tool_witness :
    call_tool (Except.ok downCollection) (fun _ => none) "delete_everything" emptyToolArguments
      = .ok ["Unknown tool: delete_everything"] :=
  C7_unknown_tool (Except.ok downCollection) (fun _ => none) "delete_everything"
    emptyToolArguments (by decide) (by decide) (by decide)

/-- C8: buffered generation returns the completion content of a single
call with temperature 0.7 and a 1500-token cap, and the empty string
(never an absent value) when the service returns no content. -/
theorem C8_buffered_generation (svc : GenService) (messages : List Message)
    (context : Option String) :
    (generate_response svc messages context
        = (svc.complete (fullMessagesBuffered messages context)
            { temperature := 7/10, max_tokens := 1500 }).getD "")
    ∧ (svc.complete (fullMessagesBuffered messages context)
          { temperature := 7/10, max_tokens := 1500 } = none →
        generate_response svc messages context = "") := by
  refine ⟨rfl, ?_⟩
  intro h
  simp [generate_response, h]

/-- Witness for C8 at a service that returns no content. -/
theorem C8_buffered_generation_witness :
    generate_response silentService [userHello] none = "" :=
  (C8_buffered_generation silentService [userHello] none).2 rfl

/-- C9: the `cuisines` argument influences neither the compiled filter
nor the search result, and the dispatcher's `search_food` branch ignores
the `cuisine` and `dietary_type` keys of its argument mapping. -/
theorem C9_cuisines_not_forwarded (getCol : Except String Collection)
    (db : String → Option UserPreferences)
    (q : String) (a : SearchArgs) (n : Int) (v : Option (List String))
    (args : ToolArguments) (v' w : Option String) :
    compileWhere { a with cuisines := v } = compileWhere a
    ∧ search_foods getCol q { a with cuisines := v } n = search_foods getCol q a n
    ∧ call_tool getCol db "search_food" { args with cuisine := v', dietary_type := w }
        = call_tool getCol db "search_food" args := by
  refine ⟨rfl, rfl, ?_⟩
  simp [call_tool]

/-- C10: empty-valued constraints (empty allergen list, empty strings)
are falsy and contribute no predicate: compilation and search behave as
if the constraint were absent. -/
theorem C10_empty_constraints_inert (getCol : Except String Collection)
    (q : String) (a : SearchArgs) (n : Int) :
    (compileWhere { a with allergies := some [] } = compileWhere { a with allergies := none }
      ∧ search_foods getCol q { a with allergies := some [] } n
          = search_foods getCol q { a with allergies := none } n)
    ∧ (compileWhere { a with dietary_type := some "" } = compileWhere { a with dietary_type := none }
      ∧ search_foods getCol q { a with dietary_type := some "" } n
          = search_foods getCol q { a with dietary_type := none } n)
    ∧ (compileWhere { a with spice_level := some "" } = compileWhere { a with spice_level := none }
      ∧ search_foods getCol q { a with spice_level := some "" } n
          = search_foods getCol q { a with spice_level := none } n)
    ∧ (compileWhere { a with meal_type := some "" } = compileWhere { a with meal_type := none }
      ∧ search_foods getCol q { a with meal_type := some "" } n
          = search_foods getCol q { a with meal_type := none } n) :=
  ⟨⟨rfl, rfl⟩, ⟨rfl, rfl⟩, ⟨rfl, rfl⟩, ⟨rfl, rfl⟩⟩

/-- A deterministic generation stub that echoes the second message of
its prompt (the slot the grounding message occupies): the one-shot
completion is that message's content, and the stream is the same text
as a single chunk. -/
def echoService : GenService :=
  { complete := fun m _ => some ((m.getD 1 { role := "", content := "" }).content),
    chunks := fun m _ => [some ((m.getD 1 { role := "", content := "" }).content)] }

theorem echoService_coherent : Coherent echoService := by
  intro m p
  show joinChunks [some ((m.getD 1 { role := "", content := "" }).content)]
    = (m.getD 1 { role := "", content := "" }).content
  simp [joinChunks]

/-- Dropping `None` and empty deltas does not change the concatenation
of a chunk stream. -/
theorem concatFragments_filterMap_emits (l : List (Option String)) :
    concatFragments (l.filterMap (fun content =>
      match content with
      | some s => if s.isEmpty then none else some s
      | none => none)) = joinChunks l := by
  induction l with
  | nil => rfl
  | cons c rest ih =>
      cases c with
      | none => simpa [List.filterMap_cons, joinChunks] using ih
      | some s =>
          by_cases hs : s.isEmpty = true
          · have hs' : s = "" := (String.isEmpty_iff s).mp hs
            subst hs'
            simpa [List.filterMap_cons, joinChunks] using ih
          · simp [List.filterMap_cons, hs, joinChunks, concatFragments, ih]

/-- A fixed index response used by the C3 witness: two hits with
distances 0 and 1. -/
def sampleQueryResult : QueryResult :=
  { ids := [["food-1", "food-2"]],
    documents := some [["Masala Dosa", "Idli"]],
    metadatas := some [[[("cuisine", "south")], []]],
    distances := some [[0, 1]] }

/-- A collection whose query always succeeds with
`sampleQueryResult`. -/
def okCollection : Collection :=
  { query := fun _ _ _ => .ok sampleQueryResult,
    getById := fun _ => .error "unused" }

/-- The normalization of `sampleQueryResult`. -/
def sampleFoods : List DishResult :=
  [{ id := "food-1", content := "Masala Dosa",
     metadata := [("cuisine", "south")], score := 1 },
   { id := "food-2", content := "Idli", metadata := [], score := 0 }]

/-- C3: a response `search_foods` normalizes successfully yields its
foods in index order: the list has one entry per document of row `[0]`,
and the entry at position `i` carries the `i`-th id, the `i`-th
document, and score `1 - distance_i` when the distances field is truthy
and `0` otherwise — no re-sorting. -/
theorem C3_score_and_order (c : Collection) (q : String) (a : SearchArgs) (n : Int)
    (r : QueryResult) (foods : List DishResult) (i : Nat) (food : DishResult)
    (hq : c.query q n (compileWhere a) = .ok r)
    (hn : normalizeResults r = some foods)
    (hf : foods.get? i = some food) :
    search_foods (Except.ok c) q a n = Except.ok foods
    ∧ foods.length = ((r.documents.getD []).headD []).length
    ∧ food.content = ((r.documents.getD []).headD []).getD i ""
    ∧ food.id = (r.ids.headD []).getD i ""
    ∧ food.score = (if truthyList r.distances
        then 1 - ((r.distances.getD []).headD []).getD i 0 else 0) := by
  have hsearch : search_foods (Except.ok c) q a n = Except.ok foods := by
    simp [search_foods, hq, hn]
  unfold normalizeResults at hn
  by_cases hg : (truthyList r.documents
      && !((r.documents.getD []).headD []).isEmpty) = true
  · rw [if_pos hg] at hn
    have hb := buildFoods_spec r ((r.documents.getD []).headD []) 0 foods hn
    have hbf := hb.2 i food hf
    rw [Nat.zero_add] at hbf
    have hc := buildFood_spec r i (((r.documents.getD []).headD []).getD i "") food hbf
    exact ⟨hsearch, hb.1, hc.1, hc.2.1, hc.2.2⟩
  · rw [if_neg hg] at hn
    have hempty : foods = [] := by simpa using hn.symm
    subst hempty
    simp at hf

/-- Witness for C3 on a concrete two-hit response. -/
theorem C3_score_and_order_witness :
    search_foods (Except.ok okCollection) "dosa" noArgs 5 = Except.ok sampleFoods
    ∧ sampleFoods.length = ((sampleQueryResult.documents.getD []).headD []).length
    ∧ ({ id := "food-1", content := "Masala Dosa",
         metadata := [("cuisine", "south")], score := 1 } : DishResult).content
        = ((sampleQueryResult.documents.getD []).headD []).getD 0 ""
    ∧ ({ id := "food-1", content := "Masala Dosa",
         metadata := [("cuisine", "south")], score := 1 } : DishResult).id
        = (sampleQueryResult.ids.headD []).getD 0 ""
    ∧ ({ id := "food-1", content := "Masala Dosa",
         metadata := [("cuisine", "south")], score := 1 } : DishResult).score
        = (if truthyList sampleQueryResult.distances
            then 1 - ((sampleQueryResult.distances.getD []).headD []).getD 0 0 else 0) :=
  C3_score_and_order okCollection "dosa" noArgs 5 sampleQueryResult sampleFoods 0
    { id := "food-1", content := "Masala Dosa",
      metadata := [("cuisine", "south")], score := 1 }
    rfl
    (by simp [normalizeResults, buildFoods, buildFood, sampleQueryResult, sampleFoods, truthyList])
    (by simp [sampleFoods])

set_option maxRecDepth 8192 in
/-- C4 counterexample: the two modes wrap a supplied grounding context
in different system-message text, so for the deterministic prompt-echo
stub (which is coherent) the streaming concatenation differs from the
buffered text. -/
theorem C4_streaming_counterexample :
    Coherent echoService
    ∧ concatFragments (generate_streaming_response echoService [userHello] (some "Masala Dosa"))
        ≠ generate_response echoService [userHello] (some "Masala Dosa") :=
  ⟨echoService_coherent, by decide⟩

/-- C4 amended: when no (truthy) grounding context is supplied the two
modes send identical message sequences with identical parameters, and
then for every coherent deterministic stub the concatenation of the
emitted streaming fragments equals the buffered mode's complete
text. -/
theorem C4_streaming_equals_buffered (svc : GenService) (messages : List Message)
    (context : Option String) (hcoh : Coherent svc) (hctx : truthyStr context = false) :
    concatFragments (generate_streaming_response svc messages context)
      = generate_response svc messages context := by
  have hmsg : fullMessagesStreaming messages context = fullMessagesBuffered messages context := by
    simp [fullMessagesStreaming, fullMessagesBuffered, hctx]
  unfold generate_streaming_response generate_response
  rw [concatFragments_filterMap_emits, hmsg, hcoh]

/-- Witness for the amended C4 with the echo stub and no context. -/
theorem C4_streaming_equals_buffered_witness :
    concatFragments (generate_streaming_response echoService [userHello] none)
      = generate_response echoService [userHello] none :=
  C4_streaming_equals_buffered echoService [userHello] none echoService_coherent rfl

end Food
